import Mathlib

/-!
Shallow embedding of the bounded-concurrency batch migration pipeline in
`src/processor.rs` (the `process_migrate` / `migrate_mint` pair and the
data types they use), together with theorems settling the specification
claims about it.

Modelling conventions:
* `Pubkey`, account data blobs, error messages and transaction signatures
  are `String`s; `Pubkey::from_str` and every remote call (`get_state`,
  `get_nft_token_account`, `RpcClient::get_account`, `migrate_item`), the
  pure decoders (`TokenAccount::unpack`, `bincode::deserialize`) and the
  possibility of an unexpected task fault (a panic inside a spawned task)
  are supplied by an `Env` record, so each run of the embedded code is a
  pure function of the environment.
* Every embedded function additionally returns the ordered trace of remote
  calls it performed (`Call`), so that claims about which lookups and
  submissions happen, and in which order, are statable.
* Mutation of the `Arc<Mutex<Vec<_>>>` collectors is modelled by explicit
  state passing: `migrate_mint` receives the collector contents in its
  `MigrateArgs` and returns the updated contents.
* The spawned tasks only touch per-item state plus the shared append-only
  collectors, so the batch loop is modelled as a sequential fold over the
  mint list; the fold order only fixes the (unspecified) append order.
* A Rust panic (the `unwrap` on mint parsing, or a task fault surfacing as
  a `JoinError` from `task?`) is modelled by dedicated abort constructors
  of `BatchResult`, distinct from a normal `Err` return.
-/

/-- Solana public key, modelled as its base-58 string form. -/
abbrev Pubkey := String

/-- Account returned by `RpcClient::get_account`: opaque data plus owner. -/
structure Account where
  data : String
  owner : Pubkey
deriving DecidableEq, Repr

/-- The one field of `spl_token::state::Account` the code reads after
`TokenAccount::unpack`. -/
structure TokenAccount where
  owner : Pubkey
deriving DecidableEq, Repr

/-- `solana_program::bpf_loader_upgradeable::UpgradeableLoaderState`. -/
inductive UpgradeableLoaderState where
  | uninit : UpgradeableLoaderState
  | bufferAccount (authorityAddress : Option Pubkey) : UpgradeableLoaderState
  | program (programdataAddress : Pubkey) : UpgradeableLoaderState
  | programData (slot : Nat) (upgradeAuthorityAddress : Option Pubkey) :
      UpgradeableLoaderState
deriving DecidableEq, Repr

/-- The part of `mpl_migration_validator::state::MigrationState` that
`process_migrate` reads: `collection_info.rule_set`. -/
structure CollectionInfo where
  rule_set : Pubkey
deriving DecidableEq, Repr

/-- Migration state returned by the `get_state` collaborator. -/
structure MigrationState where
  collection_info : CollectionInfo
deriving DecidableEq, Repr

/-- Success record serialized to the `_migrated_mints.json` file. -/
structure MigratedMint where
  sig : String
  item_mint : String
deriving DecidableEq, Repr

/-- Failure record serialized to the `_failed_mints.json` file. -/
structure MigrationError where
  mint : String
  error : String
deriving DecidableEq, Repr

/-- Arguments handed to the `migrate_item` submission collaborator
(`MigrateParams` in the source; the `client` and `payer` handles carry no
data the logic reads and are omitted). -/
structure MigrateParams where
  item_mint : Pubkey
  item_token : Pubkey
  token_owner : Pubkey
  token_owner_program : Pubkey
  token_owner_program_buffer : Option Pubkey
  collection_mint : Pubkey
  rule_set : Pubkey
deriving DecidableEq, Repr

/-- One remote interaction performed by the embedded code, in order. -/
inductive Call where
  | state_lookup (collection_mint : Pubkey) : Call
  | get_nft (mint : Pubkey) : Call
  | get_acct (key : Pubkey) : Call
  | submit (params : MigrateParams) : Call
deriving DecidableEq, Repr

/-- Whether a call is the batch-level migration-state lookup. -/
def Call.is_state_lookup : Call → Bool
  | .state_lookup _ => true
  | _ => false

/-- Environment: the external collaborators and decoders the pipeline
calls, plus the task-fault oracle. Each field corresponds to one function
the Rust code invokes. -/
structure Env where
  parsePubkey : String → Option Pubkey
  get_state : Pubkey → Except String MigrationState
  get_nft_token_account : Pubkey → Except String Pubkey
  get_account : Pubkey → Except String Account
  unpack : String → Except String TokenAccount
  deser_loader : String → Option UpgradeableLoaderState
  migrate_item : MigrateParams → Except String String
  task_fault : Pubkey → Bool

/-- `MigrateArgs` from the source: the per-task arguments of
`migrate_mint`, with the two `Arc<Mutex<Vec<_>>>` collectors replaced by
their current contents (keypair and client handles omitted). -/
structure MigrateArgs where
  collection_mint : Pubkey
  item_mint : Pubkey
  rule_set : Pubkey
  completed_mints : List MigratedMint
  errors : List MigrationError
deriving DecidableEq, Repr

/-- Result of one `migrate_mint` run: its `Result<()>` return value, the
final contents of the two collectors it was handed, and its remote-call
trace. -/
structure MigrateOut where
  ret : Except String Unit
  completed_mints : List MigratedMint
  errors : List MigrationError
  calls : List Call
deriving Repr

/-- Embedding of `migrate_mint` (src/processor.rs lines 411-513): the
five-step resolution chain, each failing step pushing one
`MigrationError` onto `args.errors` and returning `Ok(())`, followed by
the submission call whose success pushes onto `args.completed_mints`. -/
def migrate_mint (env : Env) (args : MigrateArgs) : MigrateOut :=
  match env.get_nft_token_account args.item_mint with
  | .error e =>
      { ret := .ok ()
        completed_mints := args.completed_mints
        errors := args.errors ++ [⟨args.item_mint, e⟩]
        calls := [.get_nft args.item_mint] }
  | .ok item_token =>
    match env.get_account item_token with
    | .error e =>
        { ret := .ok ()
          completed_mints := args.completed_mints
          errors := args.errors ++ [⟨args.item_mint, e⟩]
          calls := [.get_nft args.item_mint, .get_acct item_token] }
    | .ok account =>
      match env.unpack account.data with
      | .error e =>
          { ret := .ok ()
            completed_mints := args.completed_mints
            errors := args.errors ++ [⟨args.item_mint, e⟩]
            calls := [.get_nft args.item_mint, .get_acct item_token] }
      | .ok token_account =>
        let token_owner := token_account.owner
        match env.get_account token_owner with
        | .error e =>
            { ret := .ok ()
              completed_mints := args.completed_mints
              errors := args.errors ++ [⟨args.item_mint, e⟩]
              calls := [.get_nft args.item_mint, .get_acct item_token,
                        .get_acct token_owner] }
        | .ok owner_account =>
          let token_owner_program := owner_account.owner
          match env.get_account token_owner_program with
          | .error e =>
              { ret := .ok ()
                completed_mints := args.completed_mints
                errors := args.errors ++ [⟨args.item_mint, e⟩]
                calls := [.get_nft args.item_mint, .get_acct item_token,
                          .get_acct token_owner, .get_acct token_owner_program] }
          | .ok program_account =>
            let state_opt : Option UpgradeableLoaderState :=
              env.deser_loader program_account.data
            let token_owner_program_buffer : Option Pubkey :=
              match state_opt with
              | some state =>
                match state with
                | .program programdata_address => some programdata_address
                | _ => none
              | none => none
            let params : MigrateParams :=
              { item_mint := args.item_mint
                item_token := item_token
                token_owner := token_owner
                token_owner_program := token_owner_program
                token_owner_program_buffer := token_owner_program_buffer
                collection_mint := args.collection_mint
                rule_set := args.rule_set }
            match env.migrate_item params with
            | .error e =>
                { ret := .ok ()
                  completed_mints := args.completed_mints
                  errors := args.errors ++ [⟨args.item_mint, e⟩]
                  calls := [.get_nft args.item_mint, .get_acct item_token,
                            .get_acct token_owner, .get_acct token_owner_program,
                            .submit params] }
            | .ok sig =>
                { ret := .ok ()
                  completed_mints := args.completed_mints ++ [⟨sig, args.item_mint⟩]
                  errors := args.errors
                  calls := [.get_nft args.item_mint, .get_acct item_token,
                            .get_acct token_owner, .get_acct token_owner_program,
                            .submit params] }

/-- Parsing of the mint list (src/processor.rs lines 326-329):
`map(|s| Pubkey::from_str(&s).unwrap()).collect()` — the first string
that fails to parse panics; the error carries that string. -/
def parse_mints (env : Env) : List String → Except String (List Pubkey)
  | [] => .ok []
  | s :: rest =>
    match env.parsePubkey s with
    | none => .error s
    | some p =>
      match parse_mints env rest with
      | .error t => .error t
      | .ok ps => .ok (p :: ps)

/-- How a run of `process_migrate` ends: a panic (the parse `unwrap` or a
propagated `JoinError`, modelled with a fixed message), an `Err` return,
or a normal return after writing the success and failure files with the
given contents. -/
inductive BatchResult where
  | panicked (msg : String) : BatchResult
  | failed (msg : String) : BatchResult
  | ok (completed : List MigratedMint) (failures : List MigrationError) :
      BatchResult
deriving DecidableEq, Repr

/-- Outcome of `process_migrate`: how it ended plus its remote-call trace. -/
structure BatchOut where
  result : BatchResult
  calls : List Call
deriving Repr

/-- The two lists written to the output files, when they are written at
all: only a normal return reaches the `File::create` / `to_writer_pretty`
calls. -/
def written_lists : BatchOut → Option (List MigratedMint × List MigrationError)
  | { result := .ok completed failures, calls := _ } => some (completed, failures)
  | _ => none

/-- State threaded through the task loop of `process_migrate`: the
batch-level collectors, the accumulated call trace, and whether some
spawned task has suffered an unexpected fault. -/
structure LoopState where
  completed : List MigratedMint
  errors : List MigrationError
  calls : List Call
  faulted : Bool
deriving Repr

/-- One spawned task (src/processor.rs lines 357-380): build a
`MigrateArgs` with FRESH, empty collectors, run `migrate_mint`, and on an
`Err` return push a batch-level `MigrationError`. The per-task collector
contents in the task's `MigrateOut` are discarded, exactly as the code
discards its freshly allocated `Arc`s. -/
def run_task (env : Env) (collection_mint rule_set : Pubkey)
    (st : LoopState) (item_mint : Pubkey) : LoopState :=
  let args : MigrateArgs :=
    { collection_mint := collection_mint
      item_mint := item_mint
      rule_set := rule_set
      completed_mints := []
      errors := [] }
  let out := migrate_mint env args
  let errors2 :=
    match out.ret with
    | .ok _ => st.errors
    | .error e => st.errors ++ [⟨item_mint, e⟩]
  { completed := st.completed
    errors := errors2
    calls := st.calls ++ out.calls
    faulted := st.faulted || env.task_fault item_mint }

/-- Message standing for the `JoinError` that `task?` propagates when a
spawned task panicked. -/
def join_error_msg : String := "task panicked"

/-- Default permit count of the worker-pool semaphore
(`Semaphore::new(100)`, src/processor.rs line 345). -/
def concurrency_limit : Nat := 100

/-- Embedding of `process_migrate` (src/processor.rs lines 316-399):
parse the mint list (panicking on the first bad string), fetch the
migration state once, run one task per mint under the semaphore, join all
tasks (propagating a task fault as an `Err` before anything is written),
then write the batch-level collectors to the two output files. -/
def process_migrate (env : Env) (collection_mint : Pubkey)
    (mint_list : List String) : BatchOut :=
  match parse_mints env mint_list with
  | .error s => { result := .panicked s, calls := [] }
  | .ok mints =>
    match env.get_state collection_mint with
    | .error e =>
        { result := .failed e, calls := [.state_lookup collection_mint] }
    | .ok migrate_state =>
      let rule_set := migrate_state.collection_info.rule_set
      let final := mints.foldl (run_task env collection_mint rule_set)
        { completed := [], errors := [],
          calls := [.state_lookup collection_mint], faulted := false }
      if final.faulted then
        { result := .failed join_error_msg, calls := final.calls }
      else
        { result := .ok final.completed final.errors, calls := final.calls }

/-!
Counting-permit model of the worker-pool scheduler: the loop of
`process_migrate` acquires one permit of `Semaphore::new(100)` before
spawning each task (`acquire_owned().await`), the task holds the permit
for its whole execution (`let _permit = permit;`) and releases it when it
finishes, and the `while let Some(task) = tasks.next().await` loop is a
join barrier that drains every spawned task before the files are
written. A state records the permits left in the semaphore and how many
of the batch's items are not yet started, currently running, or
finished; a step either starts one pending task (consuming a permit) or
finishes one running task (releasing its permit).
-/

/-- Scheduler state: free permits, and the batch's items partitioned into
not-yet-spawned, currently executing, and finished tasks. -/
structure SchedState where
  permits : Nat
  pending : Nat
  running : Nat
  finished : Nat
deriving DecidableEq, Repr

/-- Initial scheduler state for a batch of `n` items: the semaphore holds
`concurrency_limit` permits, no task has started. -/
def schedInit (n : Nat) : SchedState :=
  { permits := concurrency_limit, pending := n, running := 0, finished := 0 }

/-- One scheduler transition: spawn a pending task after acquiring a
permit, or retire a running task, releasing its permit. -/
inductive SchedStep : SchedState → SchedState → Prop where
  | start (s : SchedState) (hp : 0 < s.permits) (hq : 0 < s.pending) :
      SchedStep s
        { permits := s.permits - 1, pending := s.pending - 1,
          running := s.running + 1, finished := s.finished }
  | finish (s : SchedState) (hr : 0 < s.running) :
      SchedStep s
        { permits := s.permits + 1, pending := s.pending,
          running := s.running - 1, finished := s.finished + 1 }

/-- States the scheduler of a batch of `n` items can reach. -/
inductive SchedReachable (n : Nat) : SchedState → Prop where
  | init : SchedReachable n (schedInit n)
  | step {s t : SchedState} (hs : SchedReachable n s) (hst : SchedStep s t) :
      SchedReachable n t

/-- The join barrier has been passed: every task was spawned and has
finished, which is when `process_migrate` moves on to writing the files. -/
def SchedState.joined (s : SchedState) : Prop :=
  s.pending = 0 ∧ s.running = 0

/-!
Concrete environments used to evaluate the embedded code on explicit
inputs. All of them parse every string as itself unless noted.
-/

/-- Environment in which every step of every item succeeds: derivation
yields `tokA`, both owner lookups yield the same account, the owner
program deserializes as an upgradeable `Program` pointing at `pda1`, and
submission returns signature `sig1`. -/
def envAllOk : Env :=
  { parsePubkey := fun s => some s
    get_state := fun _ => .ok ⟨⟨"ruleset1"⟩⟩
    get_nft_token_account := fun _ => .ok "tokA"
    get_account := fun _ => .ok ⟨"acctdata", "ownerX"⟩
    unpack := fun _ => .ok ⟨"holderY"⟩
    deser_loader := fun _ => some (.program "pda1")
    migrate_item := fun _ => .ok "sig1"
    task_fault := fun _ => false }

/-- Environment whose token-account derivation fails for every item. -/
def envNftFails : Env :=
  { envAllOk with get_nft_token_account := fun _ => .error "boom" }

/-- Environment whose initial state lookup fails. -/
def envStateFails : Env :=
  { envAllOk with get_state := fun _ => .error "state missing" }

/-- Environment in which no string parses as a `Pubkey`. -/
def envParseFails : Env :=
  { envAllOk with parsePubkey := fun _ => none }

/-- Environment in which every spawned task suffers an unexpected fault. -/
def envTaskFaults : Env :=
  { envAllOk with task_fault := fun _ => true }

/-- Environment in which the owner's controlling program account data does
not deserialize as an upgradeable-loader state. -/
def envNotUpgradeable : Env :=
  { envAllOk with deser_loader := fun _ => none }

/-- Concrete `MigrateArgs` for a single-item evaluation, with freshly
allocated (empty) collectors as each spawned task builds them. -/
def argsDemo : MigrateArgs :=
  { collection_mint := "coll", item_mint := "m1", rule_set := "ruleset1",
    completed_mints := [], errors := [] }

/-!
Helper lemmas shared by the claim theorems.
-/

/-- Collapse of the buffer computation at src/processor.rs lines 470-482:
the optional program-data buffer extracted from the deserialized
upgradeable-loader state. -/
def loader_buffer : Option UpgradeableLoaderState → Option Pubkey
  | some (.program programdata_address) => some programdata_address
  | _ => none

/-- The submission arguments `migrate_mint` builds once the whole
resolution chain has succeeded (src/processor.rs lines 484-494). -/
def resolved_params (env : Env) (args : MigrateArgs)
    (item_token : Pubkey) (token_account : TokenAccount)
    (owner_account program_account : Account) : MigrateParams :=
  { item_mint := args.item_mint
    item_token := item_token
    token_owner := token_account.owner
    token_owner_program := owner_account.owner
    token_owner_program_buffer := loader_buffer (env.deser_loader program_account.data)
    collection_mint := args.collection_mint
    rule_set := args.rule_set }

/-- Shape of a call a spawned task may make: it is not a state lookup,
and if it is a submission its `rule_set` is the shared value `r`. -/
def CallShape (r : Pubkey) (cl : Call) : Prop :=
  (∀ c, cl ≠ Call.state_lookup c) ∧
  (∀ p, cl = Call.submit p → p.rule_set = r)

/-- Path equation: the token-account derivation fails. -/
lemma migrate_mint_eq_nft_err (env : Env) (args : MigrateArgs) (e : String)
    (h1 : env.get_nft_token_account args.item_mint = .error e) :
    migrate_mint env args =
      { ret := .ok ()
        completed_mints := args.completed_mints
        errors := args.errors ++ [⟨args.item_mint, e⟩]
        calls := [.get_nft args.item_mint] } := by
  simp only [migrate_mint, h1]

/-- Path equation: the token-account fetch fails. -/
lemma migrate_mint_eq_acct_err (env : Env) (args : MigrateArgs)
    (item_token : Pubkey) (e : String)
    (h1 : env.get_nft_token_account args.item_mint = .ok item_token)
    (h2 : env.get_account item_token = .error e) :
    migrate_mint env args =
      { ret := .ok ()
        completed_mints := args.completed_mints
        errors := args.errors ++ [⟨args.item_mint, e⟩]
        calls := [.get_nft args.item_mint, .get_acct item_token] } := by
  simp only [migrate_mint, h1, h2]

/-- Path equation: decoding the token account fails. -/
lemma migrate_mint_eq_unpack_err (env : Env) (args : MigrateArgs)
    (item_token : Pubkey) (account : Account) (e : String)
    (h1 : env.get_nft_token_account args.item_mint = .ok item_token)
    (h2 : env.get_account item_token = .ok account)
    (h3 : env.unpack account.data = .error e) :
    migrate_mint env args =
      { ret := .ok ()
        completed_mints := args.completed_mints
        errors := args.errors ++ [⟨args.item_mint, e⟩]
        calls := [.get_nft args.item_mint, .get_acct item_token] } := by
  simp only [migrate_mint, h1, h2, h3]

/-- Path equation: the owner-account fetch fails. -/
lemma migrate_mint_eq_owner_err (env : Env) (args : MigrateArgs)
    (item_token : Pubkey) (account : Account) (token_account : TokenAccount)
    (e : String)
    (h1 : env.get_nft_token_account args.item_mint = .ok item_token)
    (h2 : env.get_account item_token = .ok account)
    (h3 : env.unpack account.data = .ok token_account)
    (h4 : env.get_account token_account.owner = .error e) :
    migrate_mint env args =
      { ret := .ok ()
        completed_mints := args.completed_mints
        errors := args.errors ++ [⟨args.item_mint, e⟩]
        calls := [.get_nft args.item_mint, .get_acct item_token,
                  .get_acct token_account.owner] } := by
  simp only [migrate_mint, h1, h2, h3, h4]

/-- Path equation: the owner-program account fetch fails. -/
lemma migrate_mint_eq_program_err (env : Env) (args : MigrateArgs)
    (item_token : Pubkey) (account : Account) (token_account : TokenAccount)
    (owner_account : Account) (e : String)
    (h1 : env.get_nft_token_account args.item_mint = .ok item_token)
    (h2 : env.get_account item_token = .ok account)
    (h3 : env.unpack account.data = .ok token_account)
    (h4 : env.get_account token_account.owner = .ok owner_account)
    (h5 : env.get_account owner_account.owner = .error e) :
    migrate_mint env args =
      { ret := .ok ()
        completed_mints := args.completed_mints
        errors := args.errors ++ [⟨args.item_mint, e⟩]
        calls := [.get_nft args.item_mint, .get_acct item_token,
                  .get_acct token_account.owner, .get_acct owner_account.owner] } := by
  simp only [migrate_mint, h1, h2, h3, h4, h5]

/-- Path equation: the whole chain resolves; the result depends only on
the submission call's outcome, and the submission receives
`resolved_params`. -/
lemma migrate_mint_eq_resolved (env : Env) (args : MigrateArgs)
    (item_token : Pubkey) (account : Account) (token_account : TokenAccount)
    (owner_account program_account : Account)
    (h1 : env.get_nft_token_account args.item_mint = .ok item_token)
    (h2 : env.get_account item_token = .ok account)
    (h3 : env.unpack account.data = .ok token_account)
    (h4 : env.get_account token_account.owner = .ok owner_account)
    (h5 : env.get_account owner_account.owner = .ok program_account) :
    migrate_mint env args =
      (match env.migrate_item
          (resolved_params env args item_token token_account
            owner_account program_account) with
       | .error e =>
          { ret := .ok ()
            completed_mints := args.completed_mints
            errors := args.errors ++ [⟨args.item_mint, e⟩]
            calls := [.get_nft args.item_mint, .get_acct item_token,
                      .get_acct token_account.owner, .get_acct owner_account.owner,
                      .submit (resolved_params env args item_token token_account
                        owner_account program_account)] }
       | .ok sig =>
          { ret := .ok ()
            completed_mints := args.completed_mints ++ [⟨sig, args.item_mint⟩]
            errors := args.errors
            calls := [.get_nft args.item_mint, .get_acct item_token,
                      .get_acct token_account.owner, .get_acct owner_account.owner,
                      .submit (resolved_params env args item_token token_account
                        owner_account program_account)] }) := by
  have hbuf : (match env.deser_loader program_account.data with
      | some state =>
        match state with
        | UpgradeableLoaderState.program a => some a
        | _ => none
      | none => none) = loader_buffer (env.deser_loader program_account.data) := by
    rcases hd : env.deser_loader program_account.data with _ | st
    · rfl
    · cases st <;> rfl
  simp only [migrate_mint, h1, h2, h3, h4, h5, hbuf, resolved_params]

/-- Every exit path of `migrate_mint` returns `Ok(())`: resolution and
submission failures are recorded in the error collector, never returned. -/
lemma migrate_mint_ret_ok (env : Env) (args : MigrateArgs) :
    (migrate_mint env args).ret = .ok () := by
  rcases h1 : env.get_nft_token_account args.item_mint with e | item_token
  · rw [migrate_mint_eq_nft_err env args e h1]
  rcases h2 : env.get_account item_token with e | account
  · rw [migrate_mint_eq_acct_err env args item_token e h1 h2]
  rcases h3 : env.unpack account.data with e | token_account
  · rw [migrate_mint_eq_unpack_err env args item_token account e h1 h2 h3]
  rcases h4 : env.get_account token_account.owner with e | owner_account
  · rw [migrate_mint_eq_owner_err env args item_token account token_account e
      h1 h2 h3 h4]
  rcases h5 : env.get_account owner_account.owner with e | program_account
  · rw [migrate_mint_eq_program_err env args item_token account token_account
      owner_account e h1 h2 h3 h4 h5]
  rw [migrate_mint_eq_resolved env args item_token account token_account
    owner_account program_account h1 h2 h3 h4 h5]
  rcases env.migrate_item (resolved_params env args item_token token_account
    owner_account program_account) with e | sig <;> rfl

lemma callShape_get_nft (r m : Pubkey) : CallShape r (.get_nft m) := by
  unfold CallShape
  exact ⟨fun _ h => (nomatch h), fun _ h => (nomatch h)⟩

lemma callShape_get_acct (r k : Pubkey) : CallShape r (.get_acct k) := by
  unfold CallShape
  exact ⟨fun _ h2 => (nomatch h2), fun _ h2 => (nomatch h2)⟩

lemma callShape_submit (r : Pubkey) (p : MigrateParams)
    (h : p.rule_set = r) : CallShape r (.submit p) := by
  unfold CallShape
  exact ⟨fun _ h2 => (nomatch h2), fun q hq => by cases hq; exact h⟩

/-- `migrate_mint` emits no state-lookup call, and every submission it
emits carries exactly the `rule_set` it was handed in its arguments. -/
lemma migrate_mint_calls_shape (env : Env) (args : MigrateArgs) :
    ∀ cl ∈ (migrate_mint env args).calls, CallShape args.rule_set cl := by
  rcases h1 : env.get_nft_token_account args.item_mint with e | item_token
  · rw [migrate_mint_eq_nft_err env args e h1]
    intro cl hcl
    simp only [List.mem_cons, List.not_mem_nil, or_false] at hcl
    rcases hcl with rfl
    exact callShape_get_nft _ _
  rcases h2 : env.get_account item_token with e | account
  · rw [migrate_mint_eq_acct_err env args item_token e h1 h2]
    intro cl hcl
    simp only [List.mem_cons, List.not_mem_nil, or_false] at hcl
    rcases hcl with rfl | rfl
    · exact callShape_get_nft _ _
    · exact callShape_get_acct _ _
  rcases h3 : env.unpack account.data with e | token_account
  · rw [migrate_mint_eq_unpack_err env args item_token account e h1 h2 h3]
    intro cl hcl
    simp only [List.mem_cons, List.not_mem_nil, or_false] at hcl
    rcases hcl with rfl | rfl
    · exact callShape_get_nft _ _
    · exact callShape_get_acct _ _
  rcases h4 : env.get_account token_account.owner with e | owner_account
  · rw [migrate_mint_eq_owner_err env args item_token account token_account e
      h1 h2 h3 h4]
    intro cl hcl
    simp only [List.mem_cons, List.not_mem_nil, or_false] at hcl
    rcases hcl with rfl | rfl | rfl
    · exact callShape_get_nft _ _
    · exact callShape_get_acct _ _
    · exact callShape_get_acct _ _
  rcases h5 : env.get_account owner_account.owner with e | program_account
  · rw [migrate_mint_eq_program_err env args item_token account token_account
      owner_account e h1 h2 h3 h4 h5]
    intro cl hcl
    simp only [List.mem_cons, List.not_mem_nil, or_false] at hcl
    rcases hcl with rfl | rfl | rfl | rfl
    · exact callShape_get_nft _ _
    · exact callShape_get_acct _ _
    · exact callShape_get_acct _ _
    · exact callShape_get_acct _ _
  rw [migrate_mint_eq_resolved env args item_token account token_account
    owner_account program_account h1 h2 h3 h4 h5]
  rcases env.migrate_item (resolved_params env args item_token token_account
    owner_account program_account) with e | sig <;>
  · intro cl hcl
    simp only [List.mem_cons, List.not_mem_nil, or_false] at hcl
    rcases hcl with rfl | rfl | rfl | rfl | rfl
    · exact callShape_get_nft _ _
    · exact callShape_get_acct _ _
    · exact callShape_get_acct _ _
    · exact callShape_get_acct _ _
    · exact callShape_submit _ _ rfl

/-- `run_task` never touches the batch-level success collector. -/
lemma run_task_completed (env : Env) (c r : Pubkey) (st : LoopState)
    (m : Pubkey) : (run_task env c r st m).completed = st.completed := rfl

/-- Since `migrate_mint` always returns `Ok(())`, `run_task` never pushes
onto the batch-level error collector. -/
lemma run_task_errors (env : Env) (c r : Pubkey) (st : LoopState)
    (m : Pubkey) : (run_task env c r st m).errors = st.errors := by
  unfold run_task
  simp only [migrate_mint_ret_ok]

/-- The call trace of `run_task` extends the accumulated trace with the
task's own `migrate_mint` trace. -/
lemma run_task_calls (env : Env) (c r : Pubkey) (st : LoopState)
    (m : Pubkey) :
    (run_task env c r st m).calls =
      st.calls ++ (migrate_mint env
        { collection_mint := c, item_mint := m, rule_set := r,
          completed_mints := [], errors := [] }).calls := rfl

/-- `run_task` faults exactly when a previous task faulted or this item's
task faults. -/
lemma run_task_faulted (env : Env) (c r : Pubkey) (st : LoopState)
    (m : Pubkey) :
    (run_task env c r st m).faulted = (st.faulted || env.task_fault m) := rfl

/-- Over the whole task loop, the batch-level success collector is left
exactly as it started. -/
lemma foldl_run_task_completed (env : Env) (c r : Pubkey)
    (mints : List Pubkey) (st : LoopState) :
    (mints.foldl (run_task env c r) st).completed = st.completed := by
  induction mints generalizing st with
  | nil => rfl
  | cons m rest ih => rw [List.foldl_cons, ih, run_task_completed]

/-- Over the whole task loop, the batch-level error collector is left
exactly as it started. -/
lemma foldl_run_task_errors (env : Env) (c r : Pubkey)
    (mints : List Pubkey) (st : LoopState) :
    (mints.foldl (run_task env c r) st).errors = st.errors := by
  induction mints generalizing st with
  | nil => rfl
  | cons m rest ih => rw [List.foldl_cons, ih, run_task_errors]

/-- The task loop records a fault exactly when some item's task faults. -/
lemma foldl_run_task_faulted (env : Env) (c r : Pubkey)
    (mints : List Pubkey) (st : LoopState) :
    (mints.foldl (run_task env c r) st).faulted =
      (st.faulted || mints.any env.task_fault) := by
  induction mints generalizing st with
  | nil => simp
  | cons m rest ih =>
      rw [List.foldl_cons, ih, run_task_faulted]
      simp [Bool.or_assoc]

/-- The task loop only appends calls, and every call it appends is a call
some task's `migrate_mint` made: none is a state lookup, and every
submission carries the shared `rule_set`. -/
lemma foldl_run_task_calls (env : Env) (c r : Pubkey)
    (mints : List Pubkey) (st : LoopState) :
    ∃ rest, (mints.foldl (run_task env c r) st).calls = st.calls ++ rest ∧
      ∀ cl ∈ rest, CallShape r cl := by
  induction mints generalizing st with
  | nil => exact ⟨[], by simp⟩
  | cons m rest ih =>
      rw [List.foldl_cons]
      obtain ⟨tail, htail, hshape⟩ := ih (run_task env c r st m)
      refine ⟨(migrate_mint env
        { collection_mint := c, item_mint := m, rule_set := r,
          completed_mints := [], errors := [] }).calls ++ tail, ?_, ?_⟩
      · rw [htail, run_task_calls, List.append_assoc]
      · intro cl hcl
        rcases List.mem_append.mp hcl with h | h
        · exact migrate_mint_calls_shape env _ cl h
        · exact hshape cl h

/-- If some string of the input list fails to parse, loading the mint
list aborts (the `unwrap` panics) with some offending string. -/
lemma parse_mints_error_of_mem (env : Env) (l : List String) (s : String)
    (hs : s ∈ l) (h : env.parsePubkey s = none) :
    ∃ t, parse_mints env l = .error t := by
  induction l with
  | nil => cases hs
  | cons a rest ih =>
      rcases ha : env.parsePubkey a with _ | p
      · exact ⟨a, by simp [parse_mints, ha]⟩
      · rcases List.mem_cons.mp hs with rfl | hs2
        · rw [h] at ha
          cases ha
        · obtain ⟨t, ht⟩ := ih hs2
          exact ⟨t, by simp [parse_mints, ha, ht]⟩

/-- Once parsing and the state lookup succeed, the call trace of
`process_migrate` is the single state lookup followed only by task calls
obeying `CallShape` for the fetched `rule_set`, whether or not a task
faulted. -/
lemma process_migrate_calls (env : Env) (c : Pubkey) (l : List String)
    (mints : List Pubkey) (st : MigrationState)
    (hp : parse_mints env l = .ok mints)
    (hs : env.get_state c = .ok st) :
    ∃ rest, (process_migrate env c l).calls = .state_lookup c :: rest ∧
      ∀ cl ∈ rest, CallShape st.collection_info.rule_set cl := by
  unfold process_migrate
  rw [hp, hs]
  obtain ⟨rest, hcalls, hshape⟩ :=
    foldl_run_task_calls env c st.collection_info.rule_set mints
      { completed := [], errors := [],
        calls := [.state_lookup c], faulted := false }
  refine ⟨rest, ?_, hshape⟩
  dsimp only
  split <;> simpa using hcalls

/-- Once parsing and the state lookup succeed and no task faults, the
batch completes normally and writes empty success and failure lists. -/
lemma process_migrate_ok (env : Env) (c : Pubkey) (l : List String)
    (mints : List Pubkey) (st : MigrationState)
    (hp : parse_mints env l = .ok mints)
    (hs : env.get_state c = .ok st)
    (hf : mints.any env.task_fault = false) :
    (process_migrate env c l).result = .ok [] [] := by
  unfold process_migrate
  rw [hp, hs]
  dsimp only
  rw [foldl_run_task_faulted]
  simp only [hf, Bool.false_or, Bool.or_false, if_false, Bool.false_eq_true,
    ite_false]
  rw [foldl_run_task_completed, foldl_run_task_errors]

/-- C1 (code_bug evaluation): on the one-item batch `["m1"]` whose
token-account derivation fails, `process_migrate` completes normally but
the success and failure lists it writes are both empty — 0 Outcomes for
1 input item, because each task records its Outcome in the freshly
allocated collectors of its `MigrateArgs`, which are discarded. -/
theorem claim1_outcome_count_bug :
    (process_migrate envNftFails "coll" ["m1"]).result =
      BatchResult.ok [] [] ∧
    ([] : List MigratedMint).length + ([] : List MigrationError).length ≠
      (["m1"] : List String).length := by
  exact ⟨rfl, by decide⟩

/-- C2: a failure at any step of the resolution chain (derivation, account
fetch, decode, owner fetch, owner-program fetch, or submission) makes
`migrate_mint` push exactly one `MigrationError` naming the item and
carrying the error message onto the error collector it was handed, stop —
performing no further lookup and, for resolution failures, no submission —
and return `Ok(())`; and a batch whose tasks do not fault still completes
normally whatever the per-item outcomes. -/
theorem claim2_failure_short_circuits (env : Env) (args : MigrateArgs) :
    (∀ e, env.get_nft_token_account args.item_mint = .error e →
      migrate_mint env args =
        { ret := .ok (), completed_mints := args.completed_mints,
          errors := args.errors ++ [⟨args.item_mint, e⟩],
          calls := [.get_nft args.item_mint] }) ∧
    (∀ item_token e,
      env.get_nft_token_account args.item_mint = .ok item_token →
      env.get_account item_token = .error e →
      migrate_mint env args =
        { ret := .ok (), completed_mints := args.completed_mints,
          errors := args.errors ++ [⟨args.item_mint, e⟩],
          calls := [.get_nft args.item_mint, .get_acct item_token] }) ∧
    (∀ item_token account e,
      env.get_nft_token_account args.item_mint = .ok item_token →
      env.get_account item_token = .ok account →
      env.unpack account.data = .error e →
      migrate_mint env args =
        { ret := .ok (), completed_mints := args.completed_mints,
          errors := args.errors ++ [⟨args.item_mint, e⟩],
          calls := [.get_nft args.item_mint, .get_acct item_token] }) ∧
    (∀ item_token account token_account e,
      env.get_nft_token_account args.item_mint = .ok item_token →
      env.get_account item_token = .ok account →
      env.unpack account.data = .ok token_account →
      env.get_account token_account.owner = .error e →
      migrate_mint env args =
        { ret := .ok (), completed_mints := args.completed_mints,
          errors := args.errors ++ [⟨args.item_mint, e⟩],
          calls := [.get_nft args.item_mint, .get_acct item_token,
                    .get_acct token_account.owner] }) ∧
    (∀ item_token account token_account owner_account e,
      env.get_nft_token_account args.item_mint = .ok item_token →
      env.get_account item_token = .ok account →
      env.unpack account.data = .ok token_account →
      env.get_account token_account.owner = .ok owner_account →
      env.get_account owner_account.owner = .error e →
      migrate_mint env args =
        { ret := .ok (), completed_mints := args.completed_mints,
          errors := args.errors ++ [⟨args.item_mint, e⟩],
          calls := [.get_nft args.item_mint, .get_acct item_token,
                    .get_acct token_account.owner,
                    .get_acct owner_account.owner] }) ∧
    (∀ item_token account token_account owner_account program_account e,
      env.get_nft_token_account args.item_mint = .ok item_token →
      env.get_account item_token = .ok account →
      env.unpack account.data = .ok token_account →
      env.get_account token_account.owner = .ok owner_account →
      env.get_account owner_account.owner = .ok program_account →
      env.migrate_item (resolved_params env args item_token token_account
        owner_account program_account) = .error e →
      migrate_mint env args =
        { ret := .ok (), completed_mints := args.completed_mints,
          errors := args.errors ++ [⟨args.item_mint, e⟩],
          calls := [.get_nft args.item_mint, .get_acct item_token,
                    .get_acct token_account.owner, .get_acct owner_account.owner,
                    .submit (resolved_params env args item_token token_account
                      owner_account program_account)] }) ∧
    (∀ c l mints st, parse_mints env l = .ok mints →
      env.get_state c = .ok st →
      mints.any env.task_fault = false →
      (process_migrate env c l).result = .ok [] []) := by
  refine ⟨migrate_mint_eq_nft_err env args,
    fun t e h1 h2 => migrate_mint_eq_acct_err env args t e h1 h2,
    fun t a e h1 h2 h3 => migrate_mint_eq_unpack_err env args t a e h1 h2 h3,
    fun t a ta e h1 h2 h3 h4 =>
      migrate_mint_eq_owner_err env args t a ta e h1 h2 h3 h4,
    fun t a ta oa e h1 h2 h3 h4 h5 =>
      migrate_mint_eq_program_err env args t a ta oa e h1 h2 h3 h4 h5,
    fun t a ta oa pa e h1 h2 h3 h4 h5 h6 => ?_,
    fun c l mints st hp hs hf => process_migrate_ok env c l mints st hp hs hf⟩
  rw [migrate_mint_eq_resolved env args t a ta oa pa h1 h2 h3 h4 h5, h6]

/-- Witness for C2 at a concrete input: in `envNftFails` the derivation
of item `m1` fails with message `boom`, and `migrate_mint` records
exactly that one failure. -/
theorem claim2_witness :
    migrate_mint envNftFails argsDemo =
      { ret := .ok (), completed_mints := [],
        errors := [⟨"m1", "boom"⟩],
        calls := [.get_nft "m1"] } :=
  (claim2_failure_short_circuits envNftFails argsDemo).1 "boom" rfl

/-- C3 counterexample: on the one-item batch `["m1"]` in an environment
where the spawned task suffers an unexpected fault, the claim says the
fault is converted into a Failure Outcome and both output lists are
still written; instead `process_migrate` propagates the join error,
returns `Err`, and writes nothing. -/
theorem claim3_counterexample :
    (process_migrate envTaskFaults "coll" ["m1"]).result =
      BatchResult.failed join_error_msg ∧
    written_lists (process_migrate envTaskFaults "coll" ["m1"]) = none := by
  exact ⟨rfl, rfl⟩

/-- C3 (amended): if any spawned task suffers an unexpected fault, the
join loop of `process_migrate` propagates the corresponding join error:
the whole batch aborts with an `Err` return and neither output list is
written; the fault is not converted into a Failure Outcome. -/
theorem claim3_fault_aborts_batch (env : Env) (c : Pubkey)
    (l : List String) (mints : List Pubkey) (st : MigrationState)
    (m : Pubkey)
    (hp : parse_mints env l = .ok mints)
    (hs : env.get_state c = .ok st)
    (hm : m ∈ mints)
    (hf : env.task_fault m = true) :
    (process_migrate env c l).result = .failed join_error_msg ∧
    written_lists (process_migrate env c l) = none := by
  have hany : mints.any env.task_fault = true :=
    List.any_eq_true.mpr ⟨m, hm, hf⟩
  have hres : (process_migrate env c l).result = .failed join_error_msg := by
    unfold process_migrate
    rw [hp, hs]
    dsimp only
    rw [foldl_run_task_faulted]
    simp [hany]
  refine ⟨hres, ?_⟩
  unfold written_lists
  rcases hout : process_migrate env c l with ⟨res, calls⟩
  rw [hout] at hres
  simp only at hres
  rw [hres]

/-- Witness for C3 (amended) at a concrete input: with every task
faulting, the one-item batch `["m1"]` aborts and writes nothing. -/
theorem claim3_witness :
    (process_migrate envTaskFaults "co2" ["m1"]).result =
      BatchResult.failed join_error_msg ∧
    written_lists (process_migrate envTaskFaults "co2" ["m1"]) = none :=
  claim3_fault_aborts_batch envTaskFaults "co2" ["m1"] ["m1"] ⟨⟨"ruleset1"⟩⟩
    "m1" rfl rfl (List.mem_singleton.mpr rfl) rfl

/-- C4: if the initial state lookup fails, `process_migrate` returns that
error after performing only the state-lookup call: no task runs, no
submission call is made, and nothing is written. -/
theorem claim4_state_failure_aborts (env : Env) (c : Pubkey)
    (l : List String) (mints : List Pubkey) (e : String)
    (hp : parse_mints env l = .ok mints)
    (hs : env.get_state c = .error e) :
    process_migrate env c l =
      { result := .failed e, calls := [.state_lookup c] } ∧
    (∀ p, Call.submit p ∉ (process_migrate env c l).calls) ∧
    written_lists (process_migrate env c l) = none := by
  have heq : process_migrate env c l =
      { result := .failed e, calls := [.state_lookup c] } := by
    unfold process_migrate
    rw [hp, hs]
  refine ⟨heq, ?_, ?_⟩
  · intro p hmem
    rw [heq] at hmem
    simp only [List.mem_cons, List.not_mem_nil, or_false] at hmem
    cases hmem
  · rw [heq]
    rfl

/-- Witness for C4 at a concrete input: with the state lookup failing,
the batch `["m1"]` aborts with only the lookup call in its trace. -/
theorem claim4_witness :
    process_migrate envStateFails "coll" ["m1"] =
      { result := BatchResult.failed "state missing",
        calls := [.state_lookup "coll"] } ∧
    written_lists (process_migrate envStateFails "coll" ["m1"]) = none :=
  ⟨(claim4_state_failure_aborts envStateFails "coll" ["m1"] ["m1"]
      "state missing" rfl rfl).1,
   (claim4_state_failure_aborts envStateFails "coll" ["m1"] ["m1"]
      "state missing" rfl rfl).2.2⟩

/-- C5: for an item whose first five resolution steps succeed, the
submission call is always reached and receives as optional buffer exactly
the program-data address when the owner's controlling program account
data deserializes as the upgradeable-loader `Program` variant, and no
buffer in every other case; a successful submission then leaves the error
collector untouched, so an absent buffer is not a failure. -/
theorem claim5_buffer_forwarding (env : Env) (args : MigrateArgs)
    (item_token : Pubkey) (account : Account) (token_account : TokenAccount)
    (owner_account program_account : Account)
    (h1 : env.get_nft_token_account args.item_mint = .ok item_token)
    (h2 : env.get_account item_token = .ok account)
    (h3 : env.unpack account.data = .ok token_account)
    (h4 : env.get_account token_account.owner = .ok owner_account)
    (h5 : env.get_account owner_account.owner = .ok program_account) :
    (migrate_mint env args).calls =
      [.get_nft args.item_mint, .get_acct item_token,
       .get_acct token_account.owner, .get_acct owner_account.owner,
       .submit (resolved_params env args item_token token_account
         owner_account program_account)] ∧
    (resolved_params env args item_token token_account owner_account
        program_account).token_owner_program_buffer =
      (match env.deser_loader program_account.data with
       | some (UpgradeableLoaderState.program programdata_address) =>
           some programdata_address
       | _ => none) ∧
    (∀ sig, env.migrate_item (resolved_params env args item_token
        token_account owner_account program_account) = .ok sig →
      (migrate_mint env args).errors = args.errors) := by
  refine ⟨?_, ?_, ?_⟩
  · rw [migrate_mint_eq_resolved env args item_token account token_account
      owner_account program_account h1 h2 h3 h4 h5]
    rcases env.migrate_item (resolved_params env args item_token
      token_account owner_account program_account) with e | sig <;> rfl
  · rcases hd : env.deser_loader program_account.data with _ | st
    · simp [resolved_params, loader_buffer, hd]
    · cases st <;> simp [resolved_params, loader_buffer, hd]
  · intro sig h6
    rw [migrate_mint_eq_resolved env args item_token account token_account
      owner_account program_account h1 h2 h3 h4 h5, h6]

/-- Witness for C5 at concrete inputs: in `envAllOk` the owner program is
upgradeable with program-data address `pda1` and the submission receives
`some "pda1"`; in `envNotUpgradeable` the data does not deserialize and
the submission receives no buffer. -/
theorem claim5_witness :
    (resolved_params envAllOk argsDemo "tokA" ⟨"holderY"⟩
        ⟨"acctdata", "ownerX"⟩ ⟨"acctdata", "ownerX"⟩).token_owner_program_buffer =
      some "pda1" ∧
    (resolved_params envNotUpgradeable argsDemo "tokA" ⟨"holderY"⟩
        ⟨"acctdata", "ownerX"⟩ ⟨"acctdata", "ownerX"⟩).token_owner_program_buffer =
      none ∧
    (migrate_mint envNotUpgradeable argsDemo).errors = argsDemo.errors :=
  ⟨((claim5_buffer_forwarding envAllOk argsDemo "tokA" ⟨"acctdata", "ownerX"⟩
      ⟨"holderY"⟩ ⟨"acctdata", "ownerX"⟩ ⟨"acctdata", "ownerX"⟩
      rfl rfl rfl rfl rfl).2.1).trans rfl,
   ((claim5_buffer_forwarding envNotUpgradeable argsDemo "tokA"
      ⟨"acctdata", "ownerX"⟩ ⟨"holderY"⟩ ⟨"acctdata", "ownerX"⟩
      ⟨"acctdata", "ownerX"⟩ rfl rfl rfl rfl rfl).2.1).trans rfl,
   (claim5_buffer_forwarding envNotUpgradeable argsDemo "tokA"
      ⟨"acctdata", "ownerX"⟩ ⟨"holderY"⟩ ⟨"acctdata", "ownerX"⟩
      ⟨"acctdata", "ownerX"⟩ rfl rfl rfl rfl rfl).2.2 "sig1" rfl⟩

/-- C6: a mint-list string that fails to parse aborts the whole batch at
load time, before the state lookup and before any item is processed (the
call trace is empty), and the abort is a panic, never recovered per-item. -/
theorem claim6_parse_failure_fails_fast (env : Env) (c : Pubkey)
    (l : List String) (s : String) :
    (parse_mints env l = .error s →
      process_migrate env c l = { result := .panicked s, calls := [] }) ∧
    (s ∈ l → env.parsePubkey s = none →
      ∃ t, process_migrate env c l = { result := .panicked t, calls := [] }) := by
  constructor
  · intro h
    unfold process_migrate
    rw [h]
  · intro hmem hnone
    obtain ⟨t, ht⟩ := parse_mints_error_of_mem env l s hmem hnone
    refine ⟨t, ?_⟩
    unfold process_migrate
    rw [ht]

/-- Witness for C6 at a concrete input: the batch `["bad"]` under an
environment where nothing parses panics at load with an empty call
trace. -/
theorem claim6_witness :
    process_migrate envParseFails "coll" ["bad"] =
      { result := BatchResult.panicked "bad", calls := [] } :=
  (claim6_parse_failure_fails_fast envParseFails "coll" ["bad"] "bad").1 rfl

/-- In every reachable scheduler state, the free permits and the running
tasks account for the whole semaphore, and every item of the batch is
pending, running or finished. -/
lemma sched_invariant (n : Nat) (s : SchedState)
    (h : SchedReachable n s) :
    s.permits + s.running = concurrency_limit ∧
    s.pending + s.running + s.finished = n := by
  induction h with
  | init => exact ⟨by simp [schedInit], by simp [schedInit]⟩
  | step hs hst ih =>
      obtain ⟨ih1, ih2⟩ := ih
      cases hst with
      | start hp hq => exact ⟨by dsimp only; omega, by dsimp only; omega⟩
      | finish hr => exact ⟨by dsimp only; omega, by dsimp only; omega⟩

/-- C7: the scheduler launches one task per item — every item of a batch
of `n` is always pending, running or finished, so at most `n` tasks ever
exist — at most `concurrency_limit` (100) tasks run concurrently in any
reachable state, and once the join barrier is passed (nothing pending and
nothing running, the only point where `process_migrate` moves on to
writing the files) all `n` tasks have finished. -/
theorem claim7_scheduler_bound (n : Nat) (s : SchedState)
    (h : SchedReachable n s) :
    s.running ≤ concurrency_limit ∧
    s.pending + s.running + s.finished = n ∧
    (s.joined → s.finished = n) := by
  obtain ⟨h1, h2⟩ := sched_invariant n s h
  refine ⟨by omega, h2, ?_⟩
  intro hj
  have hj2 : s.pending = 0 ∧ s.running = 0 := hj
  obtain ⟨hp, hr⟩ := hj2
  omega

/-- Witness for C7 at a concrete reachable state: after spawning one task
of a 3-item batch the scheduler is in state (99 permits, 2 pending, 1
running, 0 finished), which satisfies the bound and the accounting. -/
theorem claim7_witness :
    (SchedState.mk 99 2 1 0).running ≤ concurrency_limit ∧
    (SchedState.mk 99 2 1 0).pending + (SchedState.mk 99 2 1 0).running +
      (SchedState.mk 99 2 1 0).finished = 3 ∧
    ((SchedState.mk 99 2 1 0).joined → (SchedState.mk 99 2 1 0).finished = 3) :=
  claim7_scheduler_bound 3 (SchedState.mk 99 2 1 0)
    (SchedReachable.step SchedReachable.init
      (SchedStep.start (schedInit 3) (by decide) (by decide)))

/-- C8: once the batch starts, the migration state is looked up exactly
once, as the very first remote call, before any task's calls; and every
submission call of every task carries exactly the `rule_set` taken from
that single lookup. -/
theorem claim8_single_state_lookup (env : Env) (c : Pubkey)
    (l : List String) (mints : List Pubkey) (st : MigrationState)
    (hp : parse_mints env l = .ok mints)
    (hs : env.get_state c = .ok st) :
    (process_migrate env c l).calls.head? = some (.state_lookup c) ∧
    (process_migrate env c l).calls.countP Call.is_state_lookup = 1 ∧
    (∀ p, Call.submit p ∈ (process_migrate env c l).calls →
      p.rule_set = st.collection_info.rule_set) := by
  obtain ⟨rest, hcalls, hshape⟩ := process_migrate_calls env c l mints st hp hs
  rw [hcalls]
  refine ⟨rfl, ?_, ?_⟩
  · rw [List.countP_cons]
    have hzero : rest.countP Call.is_state_lookup = 0 := by
      rw [List.countP_eq_zero]
      intro a ha hpa
      cases a with
      | state_lookup c2 => exact (hshape _ ha).1 c2 rfl
      | get_nft m => simp [Call.is_state_lookup] at hpa
      | get_acct k => simp [Call.is_state_lookup] at hpa
      | submit p => simp [Call.is_state_lookup] at hpa
    rw [hzero]
    rfl
  · intro p hmem
    rcases List.mem_cons.mp hmem with heq | hmem2
    · exact (nomatch heq)
    · exact (hshape _ hmem2).2 p rfl

/-- Witness for C8 at a concrete input: on the all-success one-item batch
the trace starts with the single state lookup. -/
theorem claim8_witness :
    (process_migrate envAllOk "coll" ["m1"]).calls.head? =
      some (.state_lookup "coll") ∧
    (process_migrate envAllOk "coll" ["m1"]).calls.countP
      Call.is_state_lookup = 1 :=
  ⟨(claim8_single_state_lookup envAllOk "coll" ["m1"] ["m1"] ⟨⟨"ruleset1"⟩⟩
      rfl rfl).1,
   (claim8_single_state_lookup envAllOk "coll" ["m1"] ["m1"] ⟨⟨"ruleset1"⟩⟩
      rfl rfl).2.1⟩

/-- C9: `migrate_mint` returns `Ok(())` on every input and in every
remote-call outcome, so the `Err` branch of the caller's match in
`process_migrate` — the only writer of the batch-level error list — is
unreachable, and a normally-completed batch always writes an empty
failure list. -/
theorem claim9_migrate_mint_infallible :
    (∀ env args, (migrate_mint env args).ret = .ok ()) ∧
    (∀ env c l comp errs,
      (process_migrate env c l).result = .ok comp errs → errs = []) := by
  refine ⟨migrate_mint_ret_ok, ?_⟩
  intro env c l comp errs h
  unfold process_migrate at h
  rcases hp : parse_mints env l with s | mints <;> rw [hp] at h
  · simp at h
  rcases hs : env.get_state c with e | st <;> rw [hs] at h
  · simp at h
  dsimp only at h
  split at h
  · simp at h
  · rw [foldl_run_task_errors] at h
    injection h with h1 h2
    exact h2.symm

/-- Witness for C9 at a concrete input: on the all-success one-item batch
`migrate_mint` returns `Ok` and the written failure list is empty. -/
theorem claim9_witness :
    (migrate_mint envAllOk argsDemo).ret = Except.ok () ∧
    ([] : List MigrationError) = [] :=
  ⟨claim9_migrate_mint_infallible.1 envAllOk argsDemo,
   claim9_migrate_mint_infallible.2 envAllOk "coll" ["m1"] [] [] rfl⟩

/-- C10: no task ever appends to the batch-level success collector of
`process_migrate` — each task hands `migrate_mint` freshly allocated,
discarded collectors — so whenever the batch completes normally the
successes file receives an empty list, however many submissions
succeeded. -/
theorem claim10_successes_always_empty :
    (∀ env c r stt m, (run_task env c r stt m).completed = stt.completed) ∧
    (∀ env c l comp errs,
      (process_migrate env c l).result = .ok comp errs → comp = []) := by
  refine ⟨fun env c r stt m => run_task_completed env c r stt m, ?_⟩
  intro env c l comp errs h
  unfold process_migrate at h
  rcases hp : parse_mints env l with s | mints <;> rw [hp] at h
  · simp at h
  rcases hs : env.get_state c with e | st <;> rw [hs] at h
  · simp at h
  dsimp only at h
  split at h
  · simp at h
  · rw [foldl_run_task_completed] at h
    injection h with h1 h2
    exact h1.symm

/-- Witness for C10 at a concrete input: on the all-success one-item
batch, whose submission succeeds, the written success list is still
empty. -/
theorem claim10_witness :
    (run_task envAllOk "coll" "ruleset1"
      { completed := [], errors := [], calls := [], faulted := false }
      "m1").completed =
      ({ completed := [], errors := [], calls := [], faulted := false }
        : LoopState).completed ∧
    ([] : List MigratedMint) = [] :=
  ⟨claim10_successes_always_empty.1 envAllOk "coll" "ruleset1" _ "m1",
   claim10_successes_always_empty.2 envAllOk "coll" ["m1"] [] [] rfl⟩
